import Mathlib

/-!
Shallow embedding of the audio core of `symfose` (`src/audio.rs`), together
with theorems settling the specification claims about its scheduling,
sorting, rendering, and engine-state operations.

Rust `f32`/`f64` arithmetic on times, volumes and samples is modelled with
exact rational arithmetic (`ℚ`); `f32::round` (round half away from zero,
applied only to non-negative values here) is modelled by Mathlib `round`
(round half up), which agrees on non-negative values.  The note-frequency
formula, which needs a real exponential, is modelled over `ℝ`.
-/

set_option maxHeartbeats 1000000

namespace Symfose

/-- MIDI control action, from `enum MidiAction` in `src/audio.rs`.
Keys and velocities are Rust `i32`, modelled as `ℤ`. -/
inductive MidiAction where
  | noteOn (key : ℤ) (velocity : ℤ)
  | noteOff (key : ℤ)
deriving DecidableEq, Repr

/-- `MidiAction::sort_order` from `src/audio.rs`: `NoteOff` sorts as 0,
`NoteOn` as 1. -/
def MidiAction.sort_order : MidiAction → ℕ
  | .noteOff _ => 0
  | .noteOn _ _ => 1

/-- `struct ScheduledAction` from `src/audio.rs`: a MIDI action at an
absolute frame offset (`usize`, modelled as `ℕ`). -/
structure ScheduledAction where
  frame : ℕ
  action : MidiAction
deriving DecidableEq, Repr

/-- `ms_to_frames` from `src/audio.rs`:
`((milliseconds * sample_rate) / 1000.0).round().max(1.0) as usize`. -/
def ms_to_frames (milliseconds : ℕ) (sample_rate : ℕ) : ℕ :=
  (max (round (((milliseconds : ℚ) * (sample_rate : ℚ)) / 1000)) 1).toNat

/-- `seconds_to_frames` from `src/audio.rs`:
`(seconds.max(0.0) * sample_rate).round().max(0.0) as usize`. -/
def seconds_to_frames (seconds : ℚ) (sample_rate : ℕ) : ℕ :=
  (max (round (max seconds 0 * (sample_rate : ℚ))) 0).toNat

/-- Rust `clamp(lo, hi)` on ordered values: `min (max x lo) hi`. -/
def rust_clamp (x lo hi : ℚ) : ℚ :=
  min (max x lo) hi

/-- The scheduling part of `render_soundfont_note_samples` in
`src/audio.rs`: hold/release durations floored at 40 ms / 160 ms,
a `NoteOn` (velocity clamped to `1..=127`) at frame 0 and a `NoteOff`
at the hold boundary; total frames is hold plus release. -/
def schedule_note (midi_note : ℤ) (velocity : ℤ)
    (note_duration_ms release_duration_ms sample_rate : ℕ) :
    ℕ × List ScheduledAction :=
  let hold_frames := ms_to_frames (max note_duration_ms 40) sample_rate
  let release_frames := ms_to_frames (max release_duration_ms 160) sample_rate
  let total_frames := hold_frames + release_frames
  (total_frames,
    [⟨0, .noteOn midi_note (min (max velocity 1) 127)⟩,
     ⟨hold_frames, .noteOff midi_note⟩])

/-- `SongEvent` from `src/songs.rs` (the fields the scheduler uses). -/
structure SongEvent where
  at_beats : ℚ
  duration_beats : ℚ
  notes : List ℤ
  velocity : Option ℤ

/-- `SongMetadata` from `src/songs.rs` (the fields the scheduler uses). -/
structure SongMetadata where
  tempo_bpm : ℚ
  default_velocity : ℤ

/-- `SongFile` from `src/songs.rs` (the fields the scheduler uses). -/
structure SongFile where
  meta : SongMetadata
  events : List SongEvent

/-- The beat length used by `render_soundfont_song_samples`:
`60.0 / song.meta.tempo_bpm.max(1.0)`. -/
def beat_seconds (tempo_bpm : ℚ) : ℚ :=
  60 / max tempo_bpm 1

/-- The body of the per-note loop of `render_soundfont_song_samples`:
push a `NoteOn` at the event's start frame and a `NoteOff` at
`start_frame + event_duration_frames` (a Rust `saturating_add`, exact
here), and fold the note-off frame into the `max_frame` accumulator. -/
def note_pair_step (start_frame event_duration_frames : ℕ) (velocity : ℤ)
    (acc2 : List ScheduledAction × ℕ) (midi_note : ℤ) :
    List ScheduledAction × ℕ :=
  let note_off_frame := start_frame + event_duration_frames
  (acc2.1 ++
    [⟨start_frame, .noteOn midi_note velocity⟩,
     ⟨note_off_frame, .noteOff midi_note⟩],
   max acc2.2 note_off_frame)

/-- One iteration of the event loop of `render_soundfont_song_samples`:
given the accumulated `(actions, max_frame)` pair, skip the event if it
has no notes, otherwise push a `NoteOn`/`NoteOff` pair per note and track
the maximum note-off frame. -/
def song_event_step (sample_rate : ℕ) (beat_secs : ℚ)
    (fallback_duration_frames : ℕ) (default_velocity : ℤ)
    (acc : List ScheduledAction × ℕ) (event : SongEvent) :
    List ScheduledAction × ℕ :=
  if event.notes = [] then acc
  else
    let start_frame :=
      seconds_to_frames (max event.at_beats 0 * beat_secs) sample_rate
    let event_duration_frames :=
      if 0 < event.duration_beats then
        seconds_to_frames (max (event.duration_beats * beat_secs) (1 / 25))
          sample_rate
      else fallback_duration_frames
    let velocity := min (max (event.velocity.getD default_velocity) 1) 127
    event.notes.foldl
      (note_pair_step start_frame event_duration_frames velocity) acc

/-- The scheduling part of `render_soundfont_song_samples` in
`src/audio.rs`: `none` models the early-return empty paths (no events, or
no event with notes); otherwise returns total frames and the scheduled
actions in emission order. -/
def schedule_song (song : SongFile)
    (sample_rate default_note_duration_ms release_duration_ms : ℕ) :
    Option (ℕ × List ScheduledAction) :=
  if song.events.isEmpty then none
  else
    let beat_secs := beat_seconds song.meta.tempo_bpm
    let fallback_duration_frames :=
      ms_to_frames (max default_note_duration_ms 40) sample_rate
    let release_frames :=
      ms_to_frames (max release_duration_ms 240) sample_rate
    let acc :=
      song.events.foldl
        (song_event_step sample_rate beat_secs fallback_duration_frames
          song.meta.default_velocity) ([], 0)
    if acc.1 = [] then none
    else some (acc.2 + release_frames, acc.1)

/-- The frames of the `NoteOff` actions in a schedule. -/
def voice_off_frames (actions : List ScheduledAction) : List ℕ :=
  actions.filterMap fun a =>
    match a.action with
    | .noteOff _ => some a.frame
    | .noteOn _ _ => none

/-- The maximum `NoteOff` frame of a schedule (0 if there is none),
mirroring the `max_frame` accumulator of `render_soundfont_song_samples`. -/
def max_voice_off_frame (actions : List ScheduledAction) : ℕ :=
  (voice_off_frames actions).foldl max 0

/-- The boolean comparison realised by the `sort_by` comparator in
`render_scheduled_actions`: frame ascending, ties broken by
`MidiAction::sort_order` (`NoteOff` before `NoteOn`). -/
def action_le (l r : ScheduledAction) : Bool :=
  decide (l.frame < r.frame) ||
    (decide (l.frame = r.frame) &&
      decide (l.action.sort_order ≤ r.action.sort_order))

/-- The sort performed by `render_scheduled_actions` (Rust `sort_by` is a
stable merge sort). -/
def sort_actions (actions : List ScheduledAction) : List ScheduledAction :=
  actions.mergeSort action_le

/-- Abstract model of the `rustysynth` synthesizer driven by the render
engine: a state type with a segment renderer (producing the left/right
samples of the next `n` frames) and an action dispatcher
(`apply_midi_action`). -/
structure SynthModel (S : Type) where
  renderSeg : S → ℕ → S × (ℕ → ℚ) × (ℕ → ℚ)
  applyAction : S → MidiAction → S

/-- `build_synthesizer` from `src/audio.rs`: rejects sample rates outside
`16_000..=192_000`, otherwise constructs the synthesizer (`mk` models the
external `Synthesizer::new`) and applies the channel-setup MIDI messages
(`setup`). -/
def build_synthesizer {S : Type} (mk : Except String S) (setup : S → S)
    (sample_rate : ℕ) : Except String S :=
  if sample_rate < 16000 ∨ 192000 < sample_rate then
    Except.error "sample rate is outside rustysynth range 16000..=192000"
  else mk.map setup

/-- The action-walking loop of `render_scheduled_actions`: for each action
in order, first render the gap up to its frame (filling the buffers on
`[cursor, frame)`), then dispatch it.  On a frame-sorted list this is the
same walk as the source's nested loops over equal-frame groups. -/
def run_actions {S : Type} (sy : SynthModel S) :
    List ScheduledAction → S → ℕ → (ℕ → ℚ) → (ℕ → ℚ) →
      S × ℕ × (ℕ → ℚ) × (ℕ → ℚ)
  | [], s, cursor, leftBuf, rightBuf => (s, cursor, leftBuf, rightBuf)
  | a :: rest, s, cursor, leftBuf, rightBuf =>
    if cursor < a.frame then
      let r := sy.renderSeg s (a.frame - cursor)
      run_actions sy rest (sy.applyAction r.1 a.action) a.frame
        (fun i => if cursor ≤ i ∧ i < a.frame then r.2.1 (i - cursor)
          else leftBuf i)
        (fun i => if cursor ≤ i ∧ i < a.frame then r.2.2 (i - cursor)
          else rightBuf i)
    else
      run_actions sy rest (sy.applyAction s a.action) cursor leftBuf rightBuf

/-- `render_scheduled_actions` from `src/audio.rs`: empty buffer for zero
frames (before any synthesizer is built); otherwise drop actions past
`total_frames`, sort, build the synthesizer, walk the schedule rendering
segment by segment, render the tail, then apply the clamped gain and
interleave. -/
def render_scheduled_actions {S : Type} (sy : SynthModel S)
    (mk : Except String S) (setup : S → S) (gain_multiplier : ℚ)
    (sample_rate : ℕ) (total_frames : ℕ)
    (actions : List ScheduledAction) (master_volume : ℚ) :
    Except String (List ℚ) :=
  if total_frames = 0 then Except.ok []
  else
    let retained := actions.filter fun a => a.frame ≤ total_frames
    let sorted := sort_actions retained
    match build_synthesizer mk setup sample_rate with
    | .error e => Except.error e
    | .ok s0 =>
      let r := run_actions sy sorted s0 0 (fun _ => 0) (fun _ => 0)
      let cursor := r.2.1
      let leftBuf :=
        if cursor < total_frames then
          fun i => if cursor ≤ i ∧ i < total_frames then
            (sy.renderSeg r.1 (total_frames - cursor)).2.1 (i - cursor)
          else r.2.2.1 i
        else r.2.2.1
      let rightBuf :=
        if cursor < total_frames then
          fun i => if cursor ≤ i ∧ i < total_frames then
            (sy.renderSeg r.1 (total_frames - cursor)).2.2 (i - cursor)
          else r.2.2.2 i
        else r.2.2.2
      let gain := rust_clamp (master_volume * gain_multiplier) 0 (5 / 2)
      Except.ok ((List.range total_frames).flatMap fun frame =>
        [rust_clamp (leftBuf frame * gain) (-1) 1,
         rust_clamp (rightBuf frame * gain) (-1) 1])

/-- The engine state of `AudioEngine` in `src/audio.rs` (the fields the
claims are about); the profile map (`BTreeMap`) is modelled as an
association list with distinct keys left implicit, `P` abstracts the
loaded profile data. -/
structure AudioEngine (P : Type) where
  profiles : List (String × P)
  active_profile_name : String
  default_volume : ℚ
  default_duration_ms : ℕ
  release_duration_ms : ℕ

/-- `AudioEngine::set_active_profile` from `src/audio.rs`: bails without
touching the state when the name is not a key of the profile map,
otherwise stores the new active name.  The returned pair carries the
post-call state and the `Result`. -/
def AudioEngine.set_active_profile {P : Type} (e : AudioEngine P)
    (profile_name : String) : AudioEngine P × Except String Unit :=
  if ¬ (e.profiles.any fun kv => kv.1 == profile_name) then
    (e, Except.error ("unknown audio profile " ++ profile_name))
  else
    ({ e with active_profile_name := profile_name }, Except.ok ())

/-- `midi_to_frequency_hz` from `src/audio.rs`:
`440.0 * 2.0f32.powf((n - 69.0) / 12.0)`, over `ℝ`. -/
noncomputable def midi_to_frequency_hz (midi_note : ℕ) : ℝ :=
  440 * (2 : ℝ) ^ (((midi_note : ℝ) - 69) / 12)

/-- A one-event, one-note song at 120 BPM used as a concrete test input:
the event starts at beat 0, lasts one beat, and plays MIDI note 60. -/
def song1 : SongFile :=
  ⟨⟨120, 100⟩, [⟨0, 1, [60], none⟩]⟩

/-- A one-profile engine state used as a concrete test input. -/
def eng0 : AudioEngine Unit :=
  ⟨[("piano", ())], "piano", 1, 680, 720⟩

/-- A trivial synthesizer model (silent output, stateless dispatch) used
as a concrete test input. -/
def sy0 : SynthModel Unit :=
  ⟨fun s _ => (s, fun _ => 0, fun _ => 0), fun s _ => s⟩

/-- Claim C1: scheduling a single note emits exactly a `NoteOn` at frame 0
and a `NoteOff` at `ms_to_frames (max hold_ms 40)`, and the total frame
count is that note-off frame plus `ms_to_frames (max release_ms 160)`. -/
theorem claim_C1 (midi_note velocity : ℤ)
    (hold_ms release_ms sample_rate : ℕ) :
    (schedule_note midi_note velocity hold_ms release_ms sample_rate).2.length
        = 2 ∧
    ∃ a1 a2,
      (schedule_note midi_note velocity hold_ms release_ms sample_rate).2
          = [a1, a2] ∧
      a1.frame = 0 ∧
      a1.action = MidiAction.noteOn midi_note (min (max velocity 1) 127) ∧
      a2.frame = ms_to_frames (max hold_ms 40) sample_rate ∧
      a2.action = MidiAction.noteOff midi_note ∧
      (schedule_note midi_note velocity hold_ms release_ms sample_rate).1
        = a2.frame + ms_to_frames (max release_ms 160) sample_rate :=
  ⟨rfl, _, _, rfl, rfl, rfl, rfl, rfl, rfl⟩

/-- Claim C2 (amended): the millisecond conversion used by scheduling
computes `max 1 (round (ms * rate / 1000))`, hence is never zero, even for
a duration of 0; but the seconds-based conversion used for song events is
floored at 0, not 1, and returns 0 for an input of 0 seconds. -/
theorem claim_C2_amended (milliseconds sample_rate : ℕ) :
    ((ms_to_frames milliseconds sample_rate : ℤ) =
      max (round (((milliseconds : ℚ) * (sample_rate : ℚ)) / 1000)) 1) ∧
    1 ≤ ms_to_frames milliseconds sample_rate ∧
    seconds_to_frames 0 sample_rate = 0 := by
  have h1 : (1 : ℤ) ≤
      max (round (((milliseconds : ℚ) * (sample_rate : ℚ)) / 1000)) 1 :=
    le_max_right _ _
  refine ⟨Int.toNat_of_nonneg (le_trans zero_le_one h1), ?_, ?_⟩
  · have h2 := Int.toNat_le_toNat h1
    simp only [Int.toNat_one] at h2
    exact h2
  · simp [seconds_to_frames]

/-- Claim C2 (counterexample): the seconds-based conversion performed by
the song scheduler returns zero frames for 0 seconds at sample rate
48000, so not every scheduler time conversion yields at least 1 frame. -/
theorem claim_C2_counterexample :
    seconds_to_frames 0 48000 = 0 ∧ ¬ 1 ≤ seconds_to_frames 0 48000 := by
  constructor
  · simp [seconds_to_frames]
  · simp [seconds_to_frames]

/-- Claim C10: the beat length used by song scheduling is 60 divided by
`max tempo_bpm 1`; the divisor is never zero and the result is a positive
value of at most 60 for every rational tempo. -/
theorem claim_C10 (tempo_bpm : ℚ) :
    max tempo_bpm 1 ≠ 0 ∧
    0 < beat_seconds tempo_bpm ∧ beat_seconds tempo_bpm ≤ 60 := by
  have h1 : (1 : ℚ) ≤ max tempo_bpm 1 := le_max_right _ _
  have hpos : (0 : ℚ) < max tempo_bpm 1 := lt_of_lt_of_le zero_lt_one h1
  exact ⟨ne_of_gt hpos, div_pos (by norm_num) hpos,
    div_le_self (by norm_num) h1⟩

/-- Claim C9: the note-to-frequency function realises
`440 * 2 ^ ((n - 69) / 12)`; at note 69 it is exactly 440 and at note 81
exactly 880 (in the exact real model of the `f32` computation). -/
theorem claim_C9 (n : ℕ) (h : n ≤ 127) :
    midi_to_frequency_hz n = 440 * (2 : ℝ) ^ (((n : ℝ) - 69) / 12) ∧
    midi_to_frequency_hz 69 = 440 ∧
    midi_to_frequency_hz 81 = 880 := by
  refine ⟨rfl, ?_, ?_⟩
  · have h0 : ((((69 : ℕ) : ℝ)) - 69) / 12 = 0 := by norm_num
    rw [midi_to_frequency_hz, h0, Real.rpow_zero]
    norm_num
  · have h1 : ((((81 : ℕ) : ℝ)) - 69) / 12 = 1 := by norm_num
    rw [midi_to_frequency_hz, h1, Real.rpow_one]
    norm_num

/-- Witness for C9 at the concrete note 69. -/
theorem claim_C9_witness :
    (69 : ℕ) ≤ 127 ∧
    (midi_to_frequency_hz 69 =
        440 * (2 : ℝ) ^ ((((69 : ℕ) : ℝ) - 69) / 12) ∧
      midi_to_frequency_hz 69 = 440 ∧
      midi_to_frequency_hz 81 = 880) :=
  ⟨by norm_num, claim_C9 69 (by norm_num)⟩

/-- Claim C6: rendering with `total_frames = 0` succeeds with an empty
buffer for every synthesizer model, build outcome (including a failing
build, as for an unsupported sample rate) and volume, since the early
return precedes synthesizer construction. -/
theorem claim_C6 (S : Type) (sy : SynthModel S) (mk : Except String S)
    (setup : S → S) (gain_multiplier : ℚ) (sample_rate : ℕ)
    (actions : List ScheduledAction) (master_volume : ℚ) :
    render_scheduled_actions sy mk setup gain_multiplier sample_rate 0
      actions master_volume = Except.ok [] :=
  rfl

/-- Claim C8: with the external synthesizer constructor modelled as
succeeding, building the adapter fails exactly for sample rates outside
`[16000, 192000]`; inside the range the check passes and the configured
synthesizer is returned. -/
theorem claim_C8 (S : Type) (s : S) (setup : S → S) (sample_rate : ℕ) :
    ((∃ e, build_synthesizer (Except.ok s) setup sample_rate =
        Except.error e) ↔
      (sample_rate < 16000 ∨ 192000 < sample_rate)) ∧
    (16000 ≤ sample_rate → sample_rate ≤ 192000 →
      build_synthesizer (Except.ok s) setup sample_rate =
        Except.ok (setup s)) := by
  unfold build_synthesizer
  by_cases hout : sample_rate < 16000 ∨ 192000 < sample_rate
  · rw [if_pos hout]
    exact ⟨⟨fun _ => hout, fun _ => ⟨_, rfl⟩⟩,
      fun h1 h2 => absurd hout (by omega)⟩
  · rw [if_neg hout]
    refine ⟨⟨?_, fun h => absurd h hout⟩, fun _ _ => rfl⟩
    rintro ⟨e, he⟩
    exact Except.noConfusion he

/-- Claim C7: switching the active profile to a name missing from the
profile map fails and leaves the whole engine state unchanged; switching
to a present name succeeds and only updates the active profile name. -/
theorem claim_C7 (P : Type) (e : AudioEngine P) (name : String) :
    (¬ (e.profiles.any fun kv => kv.1 == name) = true →
      (e.set_active_profile name).1 = e ∧
      ∃ msg,
        (e.set_active_profile name).2 = Except.error msg) ∧
    ((e.profiles.any fun kv => kv.1 == name) = true →
      (e.set_active_profile name).2 = Except.ok () ∧
      (e.set_active_profile name).1.active_profile_name = name ∧
      (e.set_active_profile name).1.profiles = e.profiles ∧
      (e.set_active_profile name).1.default_volume = e.default_volume ∧
      (e.set_active_profile name).1.default_duration_ms
          = e.default_duration_ms ∧
      (e.set_active_profile name).1.release_duration_ms
          = e.release_duration_ms) := by
  constructor
  · intro h
    simp [AudioEngine.set_active_profile, h]
  · intro h
    simp [AudioEngine.set_active_profile, h]

/-- Witness for C7 on a concrete one-profile engine: an unknown name is
rejected without touching the state, the present name is accepted. -/
theorem claim_C7_witness :
    (¬ (eng0.profiles.any fun kv => kv.1 == "bogus") = true ∧
      (eng0.set_active_profile "bogus").1 = eng0 ∧
      ∃ msg, (eng0.set_active_profile "bogus").2 = Except.error msg) ∧
    ((eng0.profiles.any fun kv => kv.1 == "piano") = true ∧
      (eng0.set_active_profile "piano").2 = Except.ok () ∧
      (eng0.set_active_profile "piano").1.active_profile_name = "piano") := by
  have hno : ¬ (eng0.profiles.any fun kv => kv.1 == "bogus") = true := by
    decide
  have hyes : (eng0.profiles.any fun kv => kv.1 == "piano") = true := by
    decide
  have h1 := (claim_C7 Unit eng0 "bogus").1 hno
  have h2 := (claim_C7 Unit eng0 "piano").2 hyes
  exact ⟨⟨hno, h1.1, h1.2⟩, ⟨hyes, h2.1, h2.2.1⟩⟩

/-- Claim C4: after the render engine's sort, the actions are pairwise in
ascending frame order, and on equal frames the `sort_order` values are
nondecreasing, i.e. every `NoteOff` precedes every `NoteOn` of the same
frame. -/
theorem claim_C4 (l : List ScheduledAction) :
    (sort_actions l).Pairwise fun a b =>
      a.frame ≤ b.frame ∧
      (a.frame = b.frame →
        a.action.sort_order ≤ b.action.sort_order) := by
  have htrans : ∀ a b c : ScheduledAction,
      action_le a b = true → action_le b c = true →
        action_le a c = true := by
    intro a b c hab hbc
    simp only [action_le, Bool.or_eq_true, Bool.and_eq_true,
      decide_eq_true_eq] at *
    omega
  have htot : ∀ a b : ScheduledAction,
      (action_le a b || action_le b a) = true := by
    intro a b
    simp only [action_le, Bool.or_eq_true, Bool.and_eq_true,
      decide_eq_true_eq]
    omega
  have hs := List.sorted_mergeSort htrans htot l
  refine List.Pairwise.imp ?_ hs
  intro a b hab
  simp only [action_le, Bool.or_eq_true, Bool.and_eq_true,
    decide_eq_true_eq] at hab
  exact ⟨by omega, by omega⟩

/-- Witness for C8 at the concrete sample rates 8000 (rejected) and
48000 (accepted). -/
theorem claim_C8_witness :
    ((8000 < 16000 ∨ 192000 < 8000) ∧
      ∃ e, build_synthesizer (Except.ok ()) id 8000 = Except.error e) ∧
    ((16000 : ℕ) ≤ 48000 ∧ (48000 : ℕ) ≤ 192000 ∧
      build_synthesizer (Except.ok ()) id 48000 = Except.ok (id ())) :=
  ⟨⟨by norm_num, (claim_C8 Unit () id 8000).1.2 (by norm_num)⟩,
    ⟨by norm_num, by norm_num,
      (claim_C8 Unit () id 48000).2 (by norm_num) (by norm_num)⟩⟩

/-- Each final sample is a clamp into `[-1, 1]`. -/
theorem rust_clamp_bounds (x : ℚ) :
    -1 ≤ rust_clamp x (-1) 1 ∧ rust_clamp x (-1) 1 ≤ 1 :=
  ⟨le_min (le_max_right _ _) (by norm_num), min_le_right _ _⟩

/-- Interleaving two per-frame values over `n` frames yields `2 * n`
samples. -/
theorem flatMap_pair_length {α β : Type} (l : List α) (f g : α → β) :
    (l.flatMap fun a => [f a, g a]).length = 2 * l.length := by
  induction l with
  | nil => simp
  | cons a t ih =>
    simp only [List.flatMap_cons, List.length_append, List.length_cons,
      ih, List.length_nil]
    omega

/-- Claim C5: whenever the render engine returns a buffer, it has exactly
`2 * total_frames` interleaved samples and every sample lies in
`[-1, 1]`, for any synthesizer outputs and volumes in the stated
ranges. -/
theorem claim_C5 {S : Type} (sy : SynthModel S) (mk : Except String S)
    (setup : S → S) (gain_multiplier : ℚ) (sample_rate total_frames : ℕ)
    (actions : List ScheduledAction) (master_volume : ℚ) (buf : List ℚ)
    (hmv0 : 0 ≤ master_volume) (hmv1 : master_volume ≤ 5 / 2)
    (hg0 : 0 ≤ gain_multiplier) (hg1 : gain_multiplier ≤ 5 / 2)
    (hr : render_scheduled_actions sy mk setup gain_multiplier sample_rate
        total_frames actions master_volume = Except.ok buf) :
    buf.length = 2 * total_frames ∧ ∀ x ∈ buf, -1 ≤ x ∧ x ≤ 1 := by
  by_cases htf : total_frames = 0
  · subst htf
    have h0 : Except.ok ([] : List ℚ) = Except.ok buf := hr
    obtain rfl : ([] : List ℚ) = buf := by
      injection h0
    simp
  · rw [render_scheduled_actions, if_neg htf] at hr
    rcases hb : build_synthesizer mk setup sample_rate with e | s0
    · rw [hb] at hr
      exact Except.noConfusion hr
    · rw [hb] at hr
      simp only [Except.ok.injEq] at hr
      subst hr
      constructor
      · rw [flatMap_pair_length, List.length_range]
      · intro x hx
        rw [List.mem_flatMap] at hx
        obtain ⟨i, _, hmem⟩ := hx
        simp only [List.mem_cons, List.not_mem_nil, or_false] at hmem
        rcases hmem with rfl | rfl
        · exact rust_clamp_bounds _
        · exact rust_clamp_bounds _

/-- Witness for C5 on a concrete one-frame render with the trivial
synthesizer model: the buffer is `[0, 0]`, of length 2, inside
`[-1, 1]`. -/
theorem claim_C5_witness :
    ((0 : ℚ) ≤ 1 ∧ (1 : ℚ) ≤ 5 / 2 ∧
      render_scheduled_actions sy0 (Except.ok ()) id 1 48000 1 [] 1 =
        Except.ok [0, 0]) ∧
    (([0, 0] : List ℚ).length = 2 * 1 ∧
      ∀ x ∈ ([0, 0] : List ℚ), -1 ≤ x ∧ x ≤ 1) := by
  have hr : render_scheduled_actions sy0 (Except.ok ()) id 1 48000 1 [] 1 =
      Except.ok [0, 0] := by
    simp [render_scheduled_actions, sy0, sort_actions, build_synthesizer,
      run_actions, rust_clamp, List.mergeSort_nil]
    norm_num [List.range_succ]
  exact ⟨⟨by norm_num, by norm_num, hr⟩,
    claim_C5 sy0 (Except.ok ()) id 1 48000 1 [] 1 [0, 0] (by norm_num)
      (by norm_num) (by norm_num) (by norm_num) hr⟩

theorem mvof_append_pair (A : List ScheduledAction) (s f : ℕ) (n v : ℤ) :
    max_voice_off_frame (A ++ [⟨s, .noteOn n v⟩, ⟨f, .noteOff n⟩]) =
      max (max_voice_off_frame A) f := by
  unfold max_voice_off_frame voice_off_frames
  rw [List.filterMap_append, List.foldl_append]
  simp [List.filterMap]

theorem notes_fold_snd (s d : ℕ) (v : ℤ) (notes : List ℤ) :
    ∀ acc : List ScheduledAction × ℕ,
      acc.2 = max_voice_off_frame acc.1 →
      (notes.foldl (note_pair_step s d v) acc).2 =
        max_voice_off_frame (notes.foldl (note_pair_step s d v) acc).1 := by
  induction notes with
  | nil => intro acc h; simpa using h
  | cons n ns ih =>
    intro acc h
    rw [List.foldl_cons]
    apply ih
    show max acc.2 (s + d) =
      max_voice_off_frame (acc.1 ++ [⟨s, .noteOn n v⟩, ⟨s + d, .noteOff n⟩])
    rw [mvof_append_pair, h]

theorem song_step_snd (sr : ℕ) (bs : ℚ) (fb : ℕ) (dv : ℤ)
    (acc : List ScheduledAction × ℕ) (e : SongEvent)
    (h : acc.2 = max_voice_off_frame acc.1) :
    (song_event_step sr bs fb dv acc e).2 =
      max_voice_off_frame (song_event_step sr bs fb dv acc e).1 := by
  unfold song_event_step
  split
  · exact h
  · exact notes_fold_snd _ _ _ e.notes acc h

theorem events_fold_snd (sr : ℕ) (bs : ℚ) (fb : ℕ) (dv : ℤ)
    (events : List SongEvent) :
    ∀ acc, acc.2 = max_voice_off_frame acc.1 →
      (events.foldl (song_event_step sr bs fb dv) acc).2 =
        max_voice_off_frame
          (events.foldl (song_event_step sr bs fb dv) acc).1 := by
  induction events with
  | nil => intro acc h; simpa using h
  | cons e es ih =>
    intro acc h
    rw [List.foldl_cons]
    exact ih _ (song_step_snd _ _ _ _ acc e h)

theorem notes_fold_fst (s d : ℕ) (v : ℤ) (notes : List ℤ) :
    ∀ acc : List ScheduledAction × ℕ,
      (notes.foldl (note_pair_step s d v) acc).1 =
        acc.1 ++ notes.flatMap fun n =>
          [⟨s, .noteOn n v⟩, ⟨s + d, .noteOff n⟩] := by
  induction notes with
  | nil => intro acc; simp
  | cons n ns ih =>
    intro acc
    rw [List.foldl_cons, ih]
    simp [note_pair_step, List.append_assoc]

theorem notes_fold_ne (s d : ℕ) (v : ℤ) (notes : List ℤ)
    (acc : List ScheduledAction × ℕ) (h : notes ≠ []) :
    (notes.foldl (note_pair_step s d v) acc).1 ≠ [] := by
  rw [notes_fold_fst]
  obtain ⟨n, ns, rfl⟩ := List.exists_cons_of_ne_nil h
  simp

theorem song_step_ne (sr : ℕ) (bs : ℚ) (fb : ℕ) (dv : ℤ)
    (acc : List ScheduledAction × ℕ) (e : SongEvent) (h : e.notes ≠ []) :
    (song_event_step sr bs fb dv acc e).1 ≠ [] := by
  unfold song_event_step
  rw [if_neg h]
  exact notes_fold_ne _ _ _ e.notes acc h

theorem song_step_fst_extends (sr : ℕ) (bs : ℚ) (fb : ℕ) (dv : ℤ)
    (acc : List ScheduledAction × ℕ) (e : SongEvent) :
    ∃ t, (song_event_step sr bs fb dv acc e).1 = acc.1 ++ t := by
  unfold song_event_step
  split
  · exact ⟨[], by simp⟩
  · exact ⟨_, notes_fold_fst _ _ _ e.notes acc⟩

theorem song_step_preserve_ne (sr : ℕ) (bs : ℚ) (fb : ℕ) (dv : ℤ)
    (acc : List ScheduledAction × ℕ) (e : SongEvent) (h : acc.1 ≠ []) :
    (song_event_step sr bs fb dv acc e).1 ≠ [] := by
  obtain ⟨t, ht⟩ := song_step_fst_extends sr bs fb dv acc e
  rw [ht]
  intro hh
  rw [List.append_eq_nil] at hh
  exact h hh.1

theorem events_fold_ne (sr : ℕ) (bs : ℚ) (fb : ℕ) (dv : ℤ)
    (events : List SongEvent) :
    ∀ acc, ((∃ e ∈ events, e.notes ≠ []) ∨ acc.1 ≠ []) →
      (events.foldl (song_event_step sr bs fb dv) acc).1 ≠ [] := by
  induction events with
  | nil =>
    intro acc h
    rcases h with ⟨e, he, _⟩ | h
    · exact absurd he (List.not_mem_nil e)
    · simpa using h
  | cons e es ih =>
    intro acc h
    rw [List.foldl_cons]
    apply ih
    rcases h with ⟨e', he', hne⟩ | hacc
    · rcases List.mem_cons.mp he' with rfl | hmem
      · right; exact song_step_ne _ _ _ _ acc e' hne
      · left; exact ⟨e', hmem, hne⟩
    · right; exact song_step_preserve_ne _ _ _ _ acc e hacc

theorem claim_C3_amended (song : SongFile)
    (sample_rate default_note_duration_ms release_duration_ms : ℕ)
    (h : ∃ e ∈ song.events, e.notes ≠ []) :
    ∃ total actions,
      schedule_song song sample_rate default_note_duration_ms
          release_duration_ms = some (total, actions) ∧
      total = max_voice_off_frame actions +
        ms_to_frames (max release_duration_ms 240) sample_rate := by
  have hev : ¬ song.events.isEmpty = true := by
    obtain ⟨e, he, _⟩ := h
    cases hs : song.events with
    | nil => rw [hs] at he; exact absurd he (List.not_mem_nil e)
    | cons a t => simp
  rw [schedule_song, if_neg hev]
  simp only []
  have hne := events_fold_ne sample_rate (beat_seconds song.meta.tempo_bpm)
    (ms_to_frames (max default_note_duration_ms 40) sample_rate)
    song.meta.default_velocity song.events ([], 0) (Or.inl h)
  rw [if_neg hne]
  refine ⟨_, _, rfl, ?_⟩
  rw [events_fold_snd sample_rate (beat_seconds song.meta.tempo_bpm)
    (ms_to_frames (max default_note_duration_ms 40) sample_rate)
    song.meta.default_velocity song.events ([], 0) rfl]

theorem claim_C3_counterexample :
    ∃ p, schedule_song song1 48000 680 0 = some p ∧
      p.1 ≠ max_voice_off_frame p.2 + ms_to_frames 0 48000 := by
  refine ⟨(35520, [⟨0, .noteOn 60 100⟩, ⟨24000, .noteOff 60⟩]), ?_, ?_⟩
  · norm_num [schedule_song, song1, beat_seconds, song_event_step,
      note_pair_step, seconds_to_frames, ms_to_frames, round_eq]
    decide
  · norm_num [max_voice_off_frame, voice_off_frames, List.filterMap,
      ms_to_frames, round_eq]

/-- Witness for C3 (amended) on the concrete one-event song. -/
theorem claim_C3_witness :
    (∃ e ∈ song1.events, e.notes ≠ []) ∧
    ∃ total actions,
      schedule_song song1 48000 680 720 = some (total, actions) ∧
      total = max_voice_off_frame actions +
        ms_to_frames (max 720 240) 48000 :=
  ⟨⟨⟨0, 1, [60], none⟩, by simp [song1], by simp⟩,
    claim_C3_amended song1 48000 680 720
      ⟨⟨0, 1, [60], none⟩, by simp [song1], by simp⟩⟩

end Symfose
